import Mathlib

/-!
Shallow embedding of the registry module of the pipewire-rs bindings
(src/pipewire/src/registry.rs): permission flags, the object-type catalog,
global-object descriptors, and the listener registration/dispatch machinery.
Panics in the Rust source (unwrap/expect) are modelled as error values;
raw C pointers are modelled as natural numbers with 0 for null.
-/

namespace PwRegistry

/-- Permission bit-set, from the bitflags block in registry.rs:
R = 0o400, W = 0o200, X = 0o100, M = 0o010.  The raw bits are stored as
a natural number (the Rust representation is u32). -/
structure Permission where
  bits : Nat
deriving DecidableEq

namespace Permission

/-- Read permission bit (0o400). -/
def R : Permission := ⟨0o400⟩

/-- Write permission bit (0o200). -/
def W : Permission := ⟨0o200⟩

/-- Execute permission bit (0o100). -/
def X : Permission := ⟨0o100⟩

/-- Metadata-update permission bit (0o010). -/
def M : Permission := ⟨0o010⟩

/-- Union of all bits known to the bitflags block. -/
def allBits : Nat := 0o400 ||| 0o200 ||| 0o100 ||| 0o010

/-- Model of bitflags `from_bits`: succeeds exactly when every set bit of
the raw word is one of the declared flag bits, returning the value with
the raw bits stored verbatim; fails (None) otherwise. -/
def from_bits (raw : Nat) : Option Permission :=
  if raw &&& allBits = raw then some ⟨raw⟩ else none

/-- Model of bitflags `contains`: every bit of the argument is present. -/
def contains (a b : Permission) : Bool :=
  a.bits &&& b.bits = b.bits

end Permission

/-- The ObjectType enum produced by the object_type! macro in registry.rs:
one closed variant per catalog entry plus the open Other variant carrying
the original interface-name string. -/
inductive ObjectType where
  | Client
  | ClientEndpoint
  | ClientNode
  | ClientSession
  | Core
  | Device
  | Endpoint
  | EndpointLink
  | EndpointStream
  | Factory
  | Link
  | Metadata
  | Module
  | Node
  | Port
  | Profiler
  | Registry
  | Session
  | Other (s : String)
deriving DecidableEq

namespace ObjectType

/-- Model of the generated `from_str`: match the name against each
catalog entry "PipeWire:Interface:<Variant>", falling through to
Other(name) when none matches.  Total by construction, as in the source. -/
def from_str (s : String) : ObjectType :=
  if s = "PipeWire:Interface:Client" then .Client
  else if s = "PipeWire:Interface:ClientEndpoint" then .ClientEndpoint
  else if s = "PipeWire:Interface:ClientNode" then .ClientNode
  else if s = "PipeWire:Interface:ClientSession" then .ClientSession
  else if s = "PipeWire:Interface:Core" then .Core
  else if s = "PipeWire:Interface:Device" then .Device
  else if s = "PipeWire:Interface:Endpoint" then .Endpoint
  else if s = "PipeWire:Interface:EndpointLink" then .EndpointLink
  else if s = "PipeWire:Interface:EndpointStream" then .EndpointStream
  else if s = "PipeWire:Interface:Factory" then .Factory
  else if s = "PipeWire:Interface:Link" then .Link
  else if s = "PipeWire:Interface:Metadata" then .Metadata
  else if s = "PipeWire:Interface:Module" then .Module
  else if s = "PipeWire:Interface:Node" then .Node
  else if s = "PipeWire:Interface:Port" then .Port
  else if s = "PipeWire:Interface:Profiler" then .Profiler
  else if s = "PipeWire:Interface:Registry" then .Registry
  else if s = "PipeWire:Interface:Session" then .Session
  else .Other s

/-- Model of the generated `to_str`: the canonical interface name for a
closed variant, or the stored original string for Other. -/
def to_str : ObjectType → String
  | .Client => "PipeWire:Interface:Client"
  | .ClientEndpoint => "PipeWire:Interface:ClientEndpoint"
  | .ClientNode => "PipeWire:Interface:ClientNode"
  | .ClientSession => "PipeWire:Interface:ClientSession"
  | .Core => "PipeWire:Interface:Core"
  | .Device => "PipeWire:Interface:Device"
  | .Endpoint => "PipeWire:Interface:Endpoint"
  | .EndpointLink => "PipeWire:Interface:EndpointLink"
  | .EndpointStream => "PipeWire:Interface:EndpointStream"
  | .Factory => "PipeWire:Interface:Factory"
  | .Link => "PipeWire:Interface:Link"
  | .Metadata => "PipeWire:Interface:Metadata"
  | .Module => "PipeWire:Interface:Module"
  | .Node => "PipeWire:Interface:Node"
  | .Port => "PipeWire:Interface:Port"
  | .Profiler => "PipeWire:Interface:Profiler"
  | .Registry => "PipeWire:Interface:Registry"
  | .Session => "PipeWire:Interface:Session"
  | .Other s => s

/-- Model of the generated `client_version`: the API version of each
catalog entry; the Other branch panics ("Invalid object type"), modelled
here as None. -/
def client_version : ObjectType → Option Nat
  | .Client => some 3
  | .ClientEndpoint => some 0
  | .ClientNode => some 3
  | .ClientSession => some 0
  | .Core => some 3
  | .Device => some 3
  | .Endpoint => some 0
  | .EndpointLink => some 0
  | .EndpointStream => some 0
  | .Factory => some 3
  | .Link => some 3
  | .Metadata => some 3
  | .Module => some 3
  | .Node => some 3
  | .Port => some 3
  | .Profiler => some 3
  | .Registry => some 3
  | .Session => some 0
  | .Other _ => none

/-- Model of the Display impl: it writes exactly `to_str` to the formatter. -/
def display (t : ObjectType) : String := t.to_str

/-- True exactly on the closed (non-Other) variants. -/
def isClosed : ObjectType → Bool
  | .Other _ => false
  | _ => true

/-- The canonical interface names of the 18 catalog entries, in source order. -/
def catalogNames : List String :=
  ["PipeWire:Interface:Client", "PipeWire:Interface:ClientEndpoint",
   "PipeWire:Interface:ClientNode", "PipeWire:Interface:ClientSession",
   "PipeWire:Interface:Core", "PipeWire:Interface:Device",
   "PipeWire:Interface:Endpoint", "PipeWire:Interface:EndpointLink",
   "PipeWire:Interface:EndpointStream", "PipeWire:Interface:Factory",
   "PipeWire:Interface:Link", "PipeWire:Interface:Metadata",
   "PipeWire:Interface:Module", "PipeWire:Interface:Node",
   "PipeWire:Interface:Port", "PipeWire:Interface:Profiler",
   "PipeWire:Interface:Registry", "PipeWire:Interface:Session"]

end ObjectType

/-- Modelled from the spec: the spa ForeignDict (outside src/) is an
owned-copy-or-borrowed dictionary view built from a non-null raw pointer;
its contents are opaque to this module, so only the pointer is kept. -/
structure ForeignDict where
  ptr : Nat
deriving DecidableEq

/-- Model of `ForeignDict::from_ptr` (spa crate, outside src/): wraps a
non-null raw dictionary pointer. -/
def ForeignDict.from_ptr (p : Nat) : ForeignDict := ⟨p⟩

/-- Global object descriptor, from registry.rs: id, permissions, type,
version, optional property dictionary. -/
structure GlobalObject where
  id : Nat
  permissions : Permission
  type_ : ObjectType
  version : Nat
  props : Option ForeignDict
deriving DecidableEq

/-- Model of `GlobalObject::new`: builds the type via ObjectType.from_str,
the permissions via Permission.from_bits — whose failure is an
expect-panic in the source, modelled as None — stores id and version
verbatim, and sets props to None exactly when the raw pointer is null (0). -/
def GlobalObject.new (id : Nat) (permissions : Nat) (type_ : String)
    (version : Nat) (props : Nat) : Option GlobalObject :=
  let type_ := ObjectType.from_str type_
  match Permission.from_bits permissions with
  | none => none
  | some permissions =>
    let props := if props = 0 then none else some (ForeignDict.from_ptr props)
    some { id, permissions, type_, version, props }

/-!
UTF-8 decoding.  The source decodes the interface-name C string with
`CStr::from_ptr(..).to_str().unwrap()`; `to_str` is the standard UTF-8
validation of the byte string.  The standard algorithm is embedded below
as a byte-level automaton (1-byte ASCII, 2-byte C2..DF, 3-byte with the
E0/ED special first-continuation ranges excluding overlong forms and
surrogates, 4-byte with the F0/F4 special ranges capping at U+10FFFF).
-/

/-- State of the UTF-8 decoding automaton: an error sink, a state ready
for the next scalar, or a state inside a multi-byte sequence that still
needs some continuation bytes, where the next byte must lie in [lo, hi]. -/
inductive Utf8State where
  | err
  | ready (acc : List Char)
  | more (acc : List Char) (cp : Nat) (need : Nat) (lo : Nat) (hi : Nat)

/-- One step of UTF-8 decoding on a single byte. -/
def utf8Step : Utf8State → Nat → Utf8State
  | .err, _ => .err
  | .ready acc, b =>
    if b < 0x80 then .ready (acc ++ [Char.ofNat b])
    else if 0xC2 ≤ b ∧ b ≤ 0xDF then .more acc (b - 0xC0) 1 0x80 0xBF
    else if b = 0xE0 then .more acc 0 2 0xA0 0xBF
    else if b = 0xED then .more acc (0xED - 0xE0) 2 0x80 0x9F
    else if 0xE1 ≤ b ∧ b ≤ 0xEF then .more acc (b - 0xE0) 2 0x80 0xBF
    else if b = 0xF0 then .more acc 0 3 0x90 0xBF
    else if b = 0xF4 then .more acc (0xF4 - 0xF0) 3 0x80 0x8F
    else if 0xF1 ≤ b ∧ b ≤ 0xF3 then .more acc (b - 0xF0) 3 0x80 0xBF
    else .err
  | .more acc cp need lo hi, b =>
    if lo ≤ b ∧ b ≤ hi then
      if need = 1 then .ready (acc ++ [Char.ofNat (cp * 64 + (b - 0x80))])
      else .more acc (cp * 64 + (b - 0x80)) (need - 1) 0x80 0xBF
    else .err

/-- UTF-8 decoding of a byte string: run the automaton; the result is the
decoded string when the automaton ends ready, and None (the Err that the
source unwraps, i.e. a panic) when it ends in the error sink or inside an
incomplete sequence. -/
def utf8Decode (bytes : List Nat) : Option String :=
  match bytes.foldl utf8Step (.ready []) with
  | .ready acc => some ⟨acc⟩
  | _ => none

/-!
Listener machinery.  The boxed closures are identified by opaque tokens
(natural numbers): what the claims are about is which stored closure is
invoked with which argument, recorded in an invocation log, not the
closure bodies themselves.
-/

/-- The optional boxed callbacks accumulated by the builder
(struct ListenerLocalCallbacks in registry.rs); a closure is identified
by an opaque token. -/
structure ListenerLocalCallbacks where
  global : Option Nat
  global_remove : Option Nat
deriving DecidableEq

/-- Default callbacks value: both slots empty, as in derive(Default). -/
def ListenerLocalCallbacks.default : ListenerLocalCallbacks := ⟨none, none⟩

/-- The added-dispatch adapter function pointer installed by register();
the source has exactly one such function, registry_events_global. -/
inductive GlobalFnPtr where
  | registry_events_global
deriving DecidableEq

/-- The removed-dispatch adapter function pointer installed by register();
the source has exactly one, registry_events_global_remove. -/
inductive GlobalRemoveFnPtr where
  | registry_events_global_remove
deriving DecidableEq

/-- The pw_registry_events callback table: a version tag and one nullable
function-pointer slot per event, as filled in by register() starting from
zeroed memory. -/
structure RegistryEvents where
  version : Nat
  global : Option GlobalFnPtr
  global_remove : Option GlobalRemoveFnPtr
deriving DecidableEq

/-- The version tag written into the callback table (registry.rs). -/
def VERSION_REGISTRY_EVENTS : Nat := 0

/-- An invocation of a stored closure, recorded with the closure token
and the argument the adapter passed it. -/
inductive Invocation where
  | added (closure : Nat) (obj : GlobalObject)
  | removed (closure : Nat) (id : Nat)
deriving DecidableEq

/-- Whether an invocation is of an added-handler. -/
def Invocation.isAdded : Invocation → Bool
  | .added _ _ => true
  | .removed _ _ => false

/-- Whether an invocation is of a removed-handler. -/
def Invocation.isRemoved : Invocation → Bool
  | .added _ _ => false
  | .removed _ _ => true

/-- The ways the adapter functions can panic: the interface name is not
valid UTF-8 (to_str().unwrap()), the permission bits are invalid
(expect in GlobalObject::new), or the unwrap of an absent stored closure. -/
inductive PanicCause where
  | invalidUtf8
  | invalidPermissions
  | closureUnwrap
deriving DecidableEq

/-- Model of the extern adapter registry_events_global: decode the
interface-name bytes (unwrap panics on invalid UTF-8), construct the
GlobalObject (expect panics on invalid permissions), then unwrap the
stored added-closure and invoke it with the object. -/
def registry_events_global (cbs : ListenerLocalCallbacks) (id : Nat)
    (permissions : Nat) (typeBytes : List Nat) (version : Nat)
    (props : Nat) : Except PanicCause (List Invocation) :=
  match utf8Decode typeBytes with
  | none => .error .invalidUtf8
  | some type_ =>
    match GlobalObject.new id permissions type_ version props with
    | none => .error .invalidPermissions
    | some obj =>
      match cbs.global with
      | none => .error .closureUnwrap
      | some c => .ok [.added c obj]

/-- Model of the extern adapter registry_events_global_remove: unwrap the
stored removed-closure and invoke it with the bare id. -/
def registry_events_global_remove (cbs : ListenerLocalCallbacks)
    (id : Nat) : Except PanicCause (List Invocation) :=
  match cbs.global_remove with
  | none => .error .closureUnwrap
  | some c => .ok [.removed c id]

/-- A raw registry event as delivered over the C ABI: added carries the
numeric id, raw permission bits, the interface-name byte string, the
version and the property-dictionary pointer (0 for null); removed carries
only the id. -/
inductive RawEvent where
  | added (id : Nat) (permissions : Nat) (typeBytes : List Nat)
      (version : Nat) (props : Nat)
  | removed (id : Nat)
deriving DecidableEq

/-- Modelled from the spec: the native emit reads the table slot for the
event and calls the installed dispatch function, passing the user-data
(the boxed callbacks); an unset (null) slot is never invoked, so the
event is dropped with no invocation at all. -/
def dispatchEvent (e : RegistryEvents) (cbs : ListenerLocalCallbacks) :
    RawEvent → Except PanicCause (List Invocation)
  | .added id permissions typeBytes version props =>
    match e.global with
    | none => .ok []
    | some .registry_events_global =>
      registry_events_global cbs id permissions typeBytes version props
  | .removed id =>
    match e.global_remove with
    | none => .ok []
    | some .registry_events_global_remove =>
      registry_events_global_remove cbs id

/-- Dispatch of a sequence of events through one callback table: the
invocation logs are concatenated; a panic aborts the remainder. -/
def dispatchSeq (e : RegistryEvents) (cbs : ListenerLocalCallbacks) :
    List RawEvent → List Invocation
  | [] => []
  | ev :: rest =>
    match dispatchEvent e cbs ev with
    | .error _ => []
    | .ok invs => invs ++ dispatchSeq e cbs rest

/-- The Listener returned by register(): the pinned callback table, the
spa hook (identified by an opaque token), and the boxed callbacks, in
the field order of the source struct. -/
structure Listener where
  events : RegistryEvents
  listener : Nat
  data : ListenerLocalCallbacks
deriving DecidableEq

/-- The builder returned by Registry::add_listener_local: a registry
reference (opaque token) and the accumulated callbacks. -/
structure ListenerLocalBuilder where
  registry : Nat
  cbs : ListenerLocalCallbacks
deriving DecidableEq

/-- Model of Registry::add_listener_local: a fresh builder with default
(empty) callbacks. -/
def add_listener_local (registry : Nat) : ListenerLocalBuilder :=
  ⟨registry, ListenerLocalCallbacks.default⟩

/-- Model of ListenerLocalBuilder::global: store the added-closure
(last write wins). -/
def ListenerLocalBuilder.global (b : ListenerLocalBuilder) (f : Nat) :
    ListenerLocalBuilder :=
  { b with cbs := { b.cbs with global := some f } }

/-- Model of ListenerLocalBuilder::global_remove: store the
removed-closure (last write wins). -/
def ListenerLocalBuilder.global_remove (b : ListenerLocalBuilder)
    (f : Nat) : ListenerLocalBuilder :=
  { b with cbs := { b.cbs with global_remove := some f } }

/-- Modelled from the spec: the native registry keeps a notification list
of hooks, each carrying the registered callback table and user-data;
emit walks this list. -/
structure NotificationList where
  hooks : List (Nat × RegistryEvents × ListenerLocalCallbacks)
deriving DecidableEq

/-- Model of ListenerLocalBuilder::register: start from a zeroed callback
table, write the version tag, install the added-dispatch adapter only
when an added-closure is stored and the removed-dispatch adapter only
when a removed-closure is stored, splice a hook carrying table and
callbacks into the notification list, and return the Listener owning
table, hook and callbacks.  hookId is the fresh opaque hook token. -/
def ListenerLocalBuilder.register (b : ListenerLocalBuilder)
    (st : NotificationList) (hookId : Nat) :
    Listener × NotificationList :=
  let e : RegistryEvents :=
    { version := VERSION_REGISTRY_EVENTS
      global :=
        if b.cbs.global.isSome then some .registry_events_global else none
      global_remove :=
        if b.cbs.global_remove.isSome then
          some .registry_events_global_remove
        else none }
  (⟨e, hookId, b.cbs⟩, ⟨st.hooks ++ [(hookId, e, b.cbs)]⟩)

/-- Modelled from the spec: spa hook remove (spa crate, outside src/)
unlinks the hook from the notification list, so the underlying system
stops dispatching to it. -/
def hookRemove (st : NotificationList) (hookId : Nat) : NotificationList :=
  ⟨st.hooks.filter (fun h => h.1 ≠ hookId)⟩

/-- Modelled from the spec: the native emit walks the notification list
and dispatches the event to every registered hook, pairing each hook
token with the outcome for that subscription. -/
def emitEvent (st : NotificationList) (ev : RawEvent) :
    List (Nat × Except PanicCause (List Invocation)) :=
  st.hooks.map (fun h => (h.1, dispatchEvent h.2.1 h.2.2 ev))

/-- The teardown actions performed when a Listener is dropped. -/
inductive TeardownStep where
  | removeHook
  | freeEvents
  | freeListenerHook
  | freeData
deriving DecidableEq

/-- Model of `impl Drop for Listener` plus the compiler-generated field
drops: the Drop body runs first and removes the hook
(spa::hook::remove), then the fields are released in declaration order —
the events callback table, the hook allocation, then the boxed closures. -/
def listenerDropSteps : List TeardownStep :=
  [.removeHook, .freeEvents, .freeListenerHook, .freeData]

/-- Whether a dispatch outcome is the panic of unwrapping an absent
stored closure. -/
def isClosureUnwrapPanic : Except PanicCause (List Invocation) → Bool
  | .error .closureUnwrap => true
  | _ => false

/-!
Theorems.
-/

/-- Helper: a string matching no catalog entry falls through every match
arm of from_str to the Other arm. -/
theorem from_str_of_not_catalog (s : String)
    (hs : s ∉ ObjectType.catalogNames) :
    ObjectType.from_str s = .Other s := by
  simp only [ObjectType.catalogNames, List.mem_cons, List.not_mem_nil,
    or_false, not_or] at hs
  obtain ⟨h1, h2, h3, h4, h5, h6, h7, h8, h9, h10, h11, h12, h13, h14, h15,
    h16, h17, h18⟩ := hs
  simp [ObjectType.from_str, h1, h2, h3, h4, h5, h6, h7, h8, h9, h10, h11,
    h12, h13, h14, h15, h16, h17, h18]

/-- Helper: a catalog name is sent by from_str to a closed variant whose
canonical name is that very string. -/
theorem from_str_of_catalog (s : String) (hs : s ∈ ObjectType.catalogNames) :
    (ObjectType.from_str s).isClosed = true ∧
      (ObjectType.from_str s).to_str = s := by
  simp only [ObjectType.catalogNames, List.mem_cons, List.not_mem_nil,
    or_false] at hs
  rcases hs with rfl | rfl | rfl | rfl | rfl | rfl | rfl | rfl | rfl | rfl |
    rfl | rfl | rfl | rfl | rfl | rfl | rfl | rfl
  all_goals exact ⟨by decide, by decide⟩

/-- C5: client_version returns the fixed catalog protocol version for
every closed ObjectType variant and is the panic (modelled None) on
Other(S) for every string S. -/
theorem c5_client_version_total_on_closed :
    ObjectType.client_version .Client = some 3 ∧
    ObjectType.client_version .ClientEndpoint = some 0 ∧
    ObjectType.client_version .ClientNode = some 3 ∧
    ObjectType.client_version .ClientSession = some 0 ∧
    ObjectType.client_version .Core = some 3 ∧
    ObjectType.client_version .Device = some 3 ∧
    ObjectType.client_version .Endpoint = some 0 ∧
    ObjectType.client_version .EndpointLink = some 0 ∧
    ObjectType.client_version .EndpointStream = some 0 ∧
    ObjectType.client_version .Factory = some 3 ∧
    ObjectType.client_version .Link = some 3 ∧
    ObjectType.client_version .Metadata = some 3 ∧
    ObjectType.client_version .Module = some 3 ∧
    ObjectType.client_version .Node = some 3 ∧
    ObjectType.client_version .Port = some 3 ∧
    ObjectType.client_version .Profiler = some 3 ∧
    ObjectType.client_version .Registry = some 3 ∧
    ObjectType.client_version .Session = some 0 ∧
    (∀ t : ObjectType, t.isClosed = true →
      (ObjectType.client_version t).isSome = true) ∧
    (∀ s : String, ObjectType.client_version (.Other s) = none) := by
  refine ⟨rfl, rfl, rfl, rfl, rfl, rfl, rfl, rfl, rfl, rfl, rfl, rfl, rfl,
    rfl, rfl, rfl, rfl, rfl, ?_, fun _ => rfl⟩
  intro t ht
  cases t <;> simp_all [ObjectType.isClosed, ObjectType.client_version]

/-- C5 witness: the closed-variant clause applied at Node. -/
theorem c5_client_version_total_on_closed_witness :
    (ObjectType.client_version ObjectType.Node).isSome = true :=
  c5_client_version_total_on_closed.2.2.2.2.2.2.2.2.2.2.2.2.2.2.2.2.2.2.1
    ObjectType.Node rfl

/-- C6: for every closed ObjectType variant V, from_str (to_str V) = V,
and Display formatting renders exactly the to_str string of any variant. -/
theorem c6_from_str_to_str_roundtrip :
    (∀ t : ObjectType, t.isClosed = true →
      ObjectType.from_str t.to_str = t) ∧
    (∀ t : ObjectType, t.display = t.to_str) := by
  refine ⟨?_, fun _ => rfl⟩
  intro t ht
  cases t <;> first
    | rfl
    | simp_all [ObjectType.isClosed]

/-- C6 witness: the round-trip clause applied at Node, and the Display
clause at Other. -/
theorem c6_from_str_to_str_roundtrip_witness :
    ObjectType.from_str (ObjectType.to_str .Node) = ObjectType.Node ∧
      (ObjectType.Other "x").display = (ObjectType.Other "x").to_str :=
  ⟨c6_from_str_to_str_roundtrip.1 .Node rfl,
    c6_from_str_to_str_roundtrip.2 (.Other "x")⟩

/-- C7: from_str is total by construction; every string that is not a
catalog name maps to Other of itself and to_str restores it; every
catalog name maps to the matching closed variant (the one whose
canonical name is that string). -/
theorem c7_from_str_total :
    (∀ s : String, s ∉ ObjectType.catalogNames →
      ObjectType.from_str s = .Other s ∧
        ObjectType.to_str (.Other s) = s) ∧
    (∀ s : String, s ∈ ObjectType.catalogNames →
      (ObjectType.from_str s).isClosed = true ∧
        (ObjectType.from_str s).to_str = s) :=
  ⟨fun s hs => ⟨from_str_of_not_catalog s hs, rfl⟩,
    fun s hs => from_str_of_catalog s hs⟩

/-- C7 witness: applied at the unknown name Frobnicator and the catalog
name of Node. -/
theorem c7_from_str_total_witness :
    (ObjectType.from_str "PipeWire:Interface:Frobnicator" =
      .Other "PipeWire:Interface:Frobnicator" ∧
      ObjectType.to_str (.Other "PipeWire:Interface:Frobnicator") =
        "PipeWire:Interface:Frobnicator") ∧
    ((ObjectType.from_str "PipeWire:Interface:Node").isClosed = true ∧
      (ObjectType.from_str "PipeWire:Interface:Node").to_str =
        "PipeWire:Interface:Node") :=
  ⟨c7_from_str_total.1 "PipeWire:Interface:Frobnicator" (by decide),
    c7_from_str_total.2 "PipeWire:Interface:Node" (by decide)⟩

/-- C8: to_str (Other S) = S for every S, even a catalog name; on a
catalog name the round-trip from_str (to_str (Other S)) yields the
matching closed variant (for example Node), so the round-trip is the
identity on Other S exactly when S is not a catalog name. -/
theorem c8_other_roundtrip_iff_not_catalog :
    (∀ s : String, ObjectType.to_str (.Other s) = s) ∧
    ObjectType.from_str
        (ObjectType.to_str (.Other "PipeWire:Interface:Node")) =
      ObjectType.Node ∧
    (∀ s : String,
      ObjectType.from_str (ObjectType.to_str (.Other s)) = .Other s ↔
        s ∉ ObjectType.catalogNames) := by
  refine ⟨fun _ => rfl, by decide, ?_⟩
  intro s
  show ObjectType.from_str s = .Other s ↔ s ∉ ObjectType.catalogNames
  constructor
  · intro h hmem
    have hclosed := (from_str_of_catalog s hmem).1
    rw [h] at hclosed
    simp [ObjectType.isClosed] at hclosed
  · exact from_str_of_not_catalog s

/-- C8 witness: the iff applied at a non-catalog string and at a catalog
string. -/
theorem c8_other_roundtrip_iff_not_catalog_witness :
    ObjectType.from_str (ObjectType.to_str (.Other "x")) =
      ObjectType.Other "x" ∧
    ¬(ObjectType.from_str
        (ObjectType.to_str (.Other "PipeWire:Interface:Core")) =
      ObjectType.Other "PipeWire:Interface:Core") :=
  ⟨(c8_other_roundtrip_iff_not_catalog.2.2 "x").mpr (by decide),
    fun h =>
      ((c8_other_roundtrip_iff_not_catalog.2.2
        "PipeWire:Interface:Core").mp h) (by decide)⟩

/-- C4: from_bits succeeds on every combination of the four declared
bits, storing the raw bits verbatim, and fails on every raw word that
has a set bit outside the declared set, in particular on 0o001. -/
theorem c4_from_bits_valid_combinations :
    (∀ r w x m : Bool,
      Permission.from_bits
          ((if r then 0o400 else 0) ||| (if w then 0o200 else 0) |||
            (if x then 0o100 else 0) ||| (if m then 0o010 else 0)) =
        some ⟨(if r then 0o400 else 0) ||| (if w then 0o200 else 0) |||
          (if x then 0o100 else 0) ||| (if m then 0o010 else 0)⟩) ∧
    (∀ raw k : Nat, raw.testBit k = true →
      Permission.allBits.testBit k = false →
      Permission.from_bits raw = none) ∧
    Permission.from_bits 0o001 = none := by
  refine ⟨by decide, ?_, by decide⟩
  intro raw k hk hout
  unfold Permission.from_bits
  rw [if_neg]
  intro h
  have ht := congrArg (fun n => Nat.testBit n k) h
  simp only [Nat.testBit_land, hk, hout] at ht
  exact Bool.noConfusion ht

/-- C4 witness: the failure clause applied at raw = 1, whose bit 0 is
outside the declared set. -/
theorem c4_from_bits_valid_combinations_witness :
    Permission.from_bits 1 = none :=
  c4_from_bits_valid_combinations.2.1 1 0 (by decide) (by decide)

/-- C3: GlobalObject.new builds the type with from_str, propagates a
from_bits failure as a construction failure, stores id and version
verbatim, sets props to None exactly when the pointer is null; and on
id 5, raw permissions 0o700, name "PipeWire:Interface:Node", version 3
and a null props pointer it yields a descriptor containing R, W and X,
of type Node, with no props. -/
theorem c3_globalobject_new_spec :
    (∀ id perm ver props : Nat, ∀ ty : String,
      Permission.from_bits perm = none →
        GlobalObject.new id perm ty ver props = none) ∧
    (∀ id perm ver props : Nat, ∀ ty : String, ∀ p : Permission,
      Permission.from_bits perm = some p →
        GlobalObject.new id perm ty ver props =
          some ⟨id, p, ObjectType.from_str ty, ver,
            if props = 0 then none else some ⟨props⟩⟩) ∧
    (∃ g : GlobalObject,
      GlobalObject.new 5 0o700 "PipeWire:Interface:Node" 3 0 = some g ∧
        g.permissions.contains Permission.R = true ∧
        g.permissions.contains Permission.W = true ∧
        g.permissions.contains Permission.X = true ∧
        g.type_ = ObjectType.Node ∧
        g.props = none) := by
  refine ⟨?_, ?_, ?_⟩
  · intro id perm ver props ty h
    unfold GlobalObject.new
    rw [h]
  · intro id perm ver props ty p h
    unfold GlobalObject.new
    rw [h]
    rfl
  · exact ⟨⟨5, ⟨0o700⟩, ObjectType.Node, 3, none⟩, by decide, rfl, rfl, rfl,
      rfl, rfl⟩

/-- C3 witness: the failure clause at raw permissions 1 and the success
clause at raw permissions 0o700 with a non-null props pointer. -/
theorem c3_globalobject_new_spec_witness :
    GlobalObject.new 7 1 "x" 2 0 = none ∧
      GlobalObject.new 5 0o700 "PipeWire:Interface:Node" 3 9 =
        some ⟨5, ⟨0o700⟩, ObjectType.Node, 3, some ⟨9⟩⟩ := by
  constructor
  · exact c3_globalobject_new_spec.1 7 1 2 0 "x" (by decide)
  · have h := c3_globalobject_new_spec.2.1 5 0o700 3 9
      "PipeWire:Interface:Node" ⟨0o700⟩ (by decide)
    rw [h]
    decide

/-- Helper: with no added-dispatch slot installed, no sequence of events
produces an added-handler invocation. -/
theorem dispatchSeq_no_added (e : RegistryEvents)
    (cbs : ListenerLocalCallbacks) (h : e.global = none) :
    ∀ evs : List RawEvent,
      (dispatchSeq e cbs evs).any Invocation.isAdded = false := by
  intro evs
  induction evs with
  | nil => rfl
  | cons ev rest ih =>
    cases ev with
    | added id perm tb ver props =>
      simp [dispatchSeq, dispatchEvent, h, ih]
    | removed id =>
      cases hr : e.global_remove with
      | none => simp [dispatchSeq, dispatchEvent, hr, ih]
      | some ptr =>
        cases ptr
        cases hc : cbs.global_remove with
        | none =>
          simp [dispatchSeq, dispatchEvent, registry_events_global_remove,
            hr, hc]
        | some c =>
          simp [dispatchSeq, dispatchEvent, registry_events_global_remove,
            hr, hc, Invocation.isAdded, ih]

/-- Helper: with no removed-dispatch slot installed, no sequence of
events produces a removed-handler invocation. -/
theorem dispatchSeq_no_removed (e : RegistryEvents)
    (cbs : ListenerLocalCallbacks) (h : e.global_remove = none) :
    ∀ evs : List RawEvent,
      (dispatchSeq e cbs evs).any Invocation.isRemoved = false := by
  intro evs
  induction evs with
  | nil => rfl
  | cons ev rest ih =>
    cases ev with
    | removed id => simp [dispatchSeq, dispatchEvent, h, ih]
    | added id perm tb ver props =>
      cases hg : e.global with
      | none => simp [dispatchSeq, dispatchEvent, hg, ih]
      | some ptr =>
        cases ptr
        cases hu : utf8Decode tb with
        | none =>
          simp [dispatchSeq, dispatchEvent, registry_events_global, hg, hu]
        | some ty =>
          cases hn : GlobalObject.new id perm ty ver props with
          | none =>
            simp [dispatchSeq, dispatchEvent, registry_events_global, hg,
              hu, hn]
          | some obj =>
            cases hc : cbs.global with
            | none =>
              simp [dispatchSeq, dispatchEvent, registry_events_global, hg,
                hu, hn, hc]
            | some c =>
              simp [dispatchSeq, dispatchEvent, registry_events_global, hg,
                hu, hn, hc, Invocation.isRemoved, ih]

/-- C1: register() installs the added-dispatch slot exactly when an
added-closure is stored and the removed-dispatch slot exactly when a
removed-closure is stored — an unset slot is the null function pointer,
not a no-op — and consequently a Listener whose builder had no
added-closure produces no added-handler invocation on any event
sequence, and symmetrically for the removed side. -/
theorem c1_register_dispatch_selectivity (b : ListenerLocalBuilder)
    (st : NotificationList) (hookId : Nat) :
    ((b.register st hookId).1.events.global.isSome =
      b.cbs.global.isSome) ∧
    ((b.register st hookId).1.events.global_remove.isSome =
      b.cbs.global_remove.isSome) ∧
    (b.cbs.global = none →
      (b.register st hookId).1.events.global = none) ∧
    (b.cbs.global_remove = none →
      (b.register st hookId).1.events.global_remove = none) ∧
    (∀ evs : List RawEvent, b.cbs.global = none →
      (dispatchSeq (b.register st hookId).1.events
        (b.register st hookId).1.data evs).any Invocation.isAdded =
        false) ∧
    (∀ evs : List RawEvent, b.cbs.global_remove = none →
      (dispatchSeq (b.register st hookId).1.events
        (b.register st hookId).1.data evs).any Invocation.isRemoved =
        false) := by
  refine ⟨?_, ?_, ?_, ?_, ?_, ?_⟩
  · cases hb : b.cbs.global <;> simp [ListenerLocalBuilder.register, hb]
  · cases hb : b.cbs.global_remove <;>
      simp [ListenerLocalBuilder.register, hb]
  · intro hb
    simp [ListenerLocalBuilder.register, hb]
  · intro hb
    simp [ListenerLocalBuilder.register, hb]
  · intro evs hb
    exact dispatchSeq_no_added _ _
      (by simp [ListenerLocalBuilder.register, hb]) evs
  · intro evs hb
    exact dispatchSeq_no_removed _ _
      (by simp [ListenerLocalBuilder.register, hb]) evs

/-- C1 witness: a builder with only a removed-closure, registered on an
empty notification list, dispatching one added and one removed event:
the added slot is null and no added-handler invocation occurs. -/
theorem c1_register_dispatch_selectivity_witness :
    (((add_listener_local 0).global_remove 7).register ⟨[]⟩
        1).1.events.global = none ∧
    (dispatchSeq (((add_listener_local 0).global_remove 7).register ⟨[]⟩
        1).1.events
      (((add_listener_local 0).global_remove 7).register ⟨[]⟩ 1).1.data
      [.added 1 0 [65] 0 0, .removed 2]).any Invocation.isAdded =
      false :=
  ⟨(c1_register_dispatch_selectivity ((add_listener_local 0).global_remove
      7) ⟨[]⟩ 1).2.2.1 rfl,
    (c1_register_dispatch_selectivity ((add_listener_local 0).global_remove
      7) ⟨[]⟩ 1).2.2.2.2.1 [.added 1 0 [65] 0 0, .removed 2] rfl⟩

/-- C9: for a callback table and user-data produced together by
register(), the adapter functions' unconditional closure unwraps never
fail: dispatching any event through the Listener's table and data never
reaches the absent-closure panic. -/
theorem c9_register_unwrap_unreachable (b : ListenerLocalBuilder)
    (st : NotificationList) (hookId : Nat) (ev : RawEvent) :
    isClosureUnwrapPanic
      (dispatchEvent (b.register st hookId).1.events
        (b.register st hookId).1.data ev) = false := by
  cases ev with
  | added id perm tb ver props =>
    cases hb : b.cbs.global with
    | none => simp [dispatchEvent, ListenerLocalBuilder.register, hb,
        isClosureUnwrapPanic]
    | some c =>
      cases hu : utf8Decode tb with
      | none =>
        simp [dispatchEvent, ListenerLocalBuilder.register, hb,
          registry_events_global, hu, isClosureUnwrapPanic]
      | some ty =>
        cases hn : GlobalObject.new id perm ty ver props with
        | none =>
          simp [dispatchEvent, ListenerLocalBuilder.register, hb,
            registry_events_global, hu, hn, isClosureUnwrapPanic]
        | some obj =>
          simp [dispatchEvent, ListenerLocalBuilder.register, hb,
            registry_events_global, hu, hn, isClosureUnwrapPanic]
  | removed id =>
    cases hb : b.cbs.global_remove with
    | none => simp [dispatchEvent, ListenerLocalBuilder.register, hb,
        isClosureUnwrapPanic]
    | some c =>
      simp [dispatchEvent, ListenerLocalBuilder.register, hb,
        registry_events_global_remove, isClosureUnwrapPanic]

/-- C10: the added-event adapter panics on an interface-name byte string
that is not valid UTF-8; on a valid one the decode succeeds and
descriptor construction proceeds — ending in the permission panic when
the raw bits are invalid, and in an invocation of the stored
added-closure with the constructed descriptor otherwise. -/
theorem c10_added_adapter_utf8 (cbs : ListenerLocalCallbacks)
    (id perm ver props : Nat) (bytes : List Nat) :
    (utf8Decode bytes = none →
      registry_events_global cbs id perm bytes ver props =
        .error .invalidUtf8) ∧
    (∀ s : String, utf8Decode bytes = some s →
      Permission.from_bits perm = none →
        registry_events_global cbs id perm bytes ver props =
          .error .invalidPermissions) ∧
    (∀ s : String, ∀ p : Permission, ∀ c : Nat,
      utf8Decode bytes = some s → Permission.from_bits perm = some p →
        cbs.global = some c →
        registry_events_global cbs id perm bytes ver props =
          .ok [.added c ⟨id, p, ObjectType.from_str s, ver,
            if props = 0 then none else some ⟨props⟩⟩]) := by
  refine ⟨?_, ?_, ?_⟩
  · intro hu
    simp [registry_events_global, hu]
  · intro s hu hp
    simp [registry_events_global, hu, GlobalObject.new, hp]
  · intro s p c hu hp hc
    simp [registry_events_global, hu, GlobalObject.new, hp, hc,
      ForeignDict.from_ptr]

/-- C10 witness: the adapter at the invalid byte 0xFF panics with the
UTF-8 cause, and at the valid byte string "A" invokes the stored closure
with the constructed descriptor. -/
theorem c10_added_adapter_utf8_witness :
    registry_events_global ⟨some 3, none⟩ 1 0 [0xFF] 0 0 =
      .error .invalidUtf8 ∧
    registry_events_global ⟨some 3, none⟩ 1 0 [65] 0 0 =
      .ok [.added 3 ⟨1, ⟨0⟩, ObjectType.Other "A", 0, none⟩] := by
  constructor
  · exact (c10_added_adapter_utf8 ⟨some 3, none⟩ 1 0 0 0 [0xFF]).1 rfl
  · have h := (c10_added_adapter_utf8 ⟨some 3, none⟩ 1 0 0 0 [65]).2.2 "A"
      ⟨0⟩ 3 rfl (by decide) rfl
    rw [h]
    rfl

/-- C2: dropping a Listener performs the hook unregistration first,
before releasing the callback table and then the boxed closures, in that
order; and once a hook is removed from the notification list, emitting
any further event dispatches nothing to that subscription. -/
theorem c2_drop_order_and_no_dispatch_after_release :
    listenerDropSteps =
      [.removeHook, .freeEvents, .freeListenerHook, .freeData] ∧
    listenerDropSteps.head? = some .removeHook ∧
    (∀ st : NotificationList, ∀ hookId : Nat, ∀ ev : RawEvent,
      (emitEvent (hookRemove st hookId) ev).all
        (fun p => p.1 != hookId) = true) := by
  refine ⟨rfl, rfl, ?_⟩
  intro st hookId ev
  rw [List.all_eq_true]
  intro p hp
  simp only [emitEvent, hookRemove, List.mem_map] at hp
  obtain ⟨h, hh, rfl⟩ := hp
  have hne := List.of_mem_filter hh
  simpa using hne

end PwRegistry
